import Mathlib

/-!
Shallow embedding of the `mpsc_requests` crate (src/lib.rs): a synchronous
request/response channel layered over an ordered multi-producer /
single-consumer queue.  Pure data is modelled directly; the mpsc channels
are modelled as explicit state, and blocking / panicking operations return
explicit outcome values (`blocked`, `panicked`).
-/

namespace MpscRequests

/-- `RequestError` from src/lib.rs: errors which can occur when a responder
handles a request. `RecvError` means the channel from requester to responder
is broken; `SendError` means the reply channel back to the requester is
broken. -/
inductive RequestError where
  | RecvError : RequestError
  | SendError : RequestError
deriving DecidableEq, Repr

/-- The `Request` envelope from src/lib.rs: a request body paired with the
send-end of its private reply channel.  The send-end is modelled as the
index (`response_sender`) of the reply channel in the channel state. -/
structure Request (Req : Type) where
  request : Req
  response_sender : Nat
deriving DecidableEq, Repr

/-- State of one single-use reply channel (`mpsc::channel::<Res>()` created
inside `send_req`).  `msgs` is the channel's buffer (values sent and not
yet received), `senderAlive` tracks whether the send-end (held inside the
envelope) still exists, `receiverAlive` whether the receive-end (held by the
blocked `send_req` call) still exists. -/
structure ReplyChan (Res : Type) where
  msgs : List Res
  senderAlive : Bool
  receiverAlive : Bool
deriving DecidableEq, Repr

/-- State of one requester/responder channel: the shared mpsc queue of
request envelopes (FIFO, head = oldest), the pool of reply channels indexed
by `Nat` id, the number of live `Requester` clones, and whether the
`Responder` (the unique owner of the queue's receive-end) is still alive. -/
structure ChanState (Req Res : Type) where
  queue : List (Request Req)
  replies : List (ReplyChan Res)
  senders : Nat
  responderAlive : Bool
deriving DecidableEq, Repr

/-- Outcome of one `Responder::poll` call.  `result r s invs` is a returned
`Result` value `r` together with the post-state `s` and the list `invs` of
request bodies the handler was invoked on during the call (instrumentation
recording handler invocations).  `blocked` models `recv()` suspending the
responder thread because the queue is empty but senders remain. -/
inductive PollOutcome (Req Res : Type) where
  | result (r : Except RequestError Unit) (s : ChanState Req Res) (invs : List Req)
  | blocked
deriving Repr

/-- `Responder::poll` from src/lib.rs:

    let request = self.request_receiver.recv()?;
    let response = f(request.request);
    Ok(request.response_sender.send(response)?)

`recv` returns the head envelope, or `RecvError` when the queue is empty and
no sender remains, or blocks.  The handler `f` runs exactly once on the
dequeued body.  `send` on the reply channel succeeds iff its receive-end is
still alive; either way the envelope (and with it the reply send-end) is
consumed. -/
def poll {Req Res : Type} (f : Req → Res) (s : ChanState Req Res) :
    PollOutcome Req Res :=
  match s.queue with
  | [] =>
    if s.senders = 0 then .result (.error .RecvError) s []
    else .blocked
  | env :: rest =>
    let response := f env.request
    match s.replies[env.response_sender]? with
    | none => .result (.error .SendError) { s with queue := rest } [env.request]
    | some ch =>
      if ch.receiverAlive then
        let ch₁ := { ch with msgs := ch.msgs ++ [response], senderAlive := false }
        let replies₁ := s.replies.set env.response_sender ch₁
        .result (.ok ()) { s with queue := rest, replies := replies₁ } [env.request]
      else
        let ch₁ := { ch with senderAlive := false }
        let replies₁ := s.replies.set env.response_sender ch₁
        .result (.error .SendError) { s with queue := rest, replies := replies₁ }
          [env.request]

/-- Outcome of `Responder::poll_loop`.  `terminated` models the `break` on
`RecvError` (clean return to the caller); `panicked` models the
`panic!("Request failed, send pipe was broken during request!")` on
`SendError`; `blocked` models the loop suspended inside `recv`;
`outOfFuel` is an artefact of the fuel-based embedding of the
unbounded `loop`.  Each carries the accumulated handler invocations. -/
inductive LoopOutcome (Req Res : Type) where
  | terminated (s : ChanState Req Res) (invs : List Req)
  | panicked (invs : List Req)
  | blocked (invs : List Req)
  | outOfFuel (s : ChanState Req Res) (invs : List Req)
deriving Repr

/-- `Responder::poll_loop` from src/lib.rs, with fuel bounding the number of
iterations of the Rust `loop`:

    loop {
        match self.poll(f) {
            Ok(_) => (),
            Err(e) => match e {
                RequestError::RecvError => break,
                RequestError::SendError => panic!(...)
            }
        }
    }
-/
def poll_loop {Req Res : Type} (f : Req → Res) :
    Nat → ChanState Req Res → List Req → LoopOutcome Req Res
  | 0, s, acc => .outOfFuel s acc
  | fuel + 1, s, acc =>
    match poll f s with
    | .blocked => .blocked acc
    | .result (.ok ()) s₁ invs => poll_loop f fuel s₁ (acc ++ invs)
    | .result (.error .RecvError) s₁ invs => .terminated s₁ (acc ++ invs)
    | .result (.error .SendError) _ invs => .panicked (acc ++ invs)

/-- Outcome of the submission half of `Requester::send_req`:

    let (response_sender, response_receiver) = mpsc::channel::<Res>();
    let full_request = Request { request: req, response_sender: response_sender };
    self.request_sender.send(full_request).unwrap();

A fresh reply channel is created and the envelope is appended to the shared
queue; `submitted s rid` returns the post-state and the fresh reply channel's
id on which the caller then blocks.  If the responder has been dropped, the
`send` fails and the `.unwrap()` panics the calling thread. -/
inductive SubmitOutcome (Req Res : Type) where
  | submitted (s : ChanState Req Res) (rid : Nat)
  | panicked
deriving Repr

/-- The submission half of `Requester::send_req` (see `SubmitOutcome`). -/
def send_req_submit {Req Res : Type} (s : ChanState Req Res) (v : Req) :
    SubmitOutcome Req Res :=
  if s.responderAlive then
    let rid := s.replies.length
    let queue₁ := s.queue ++ [⟨v, rid⟩]
    let replies₁ := s.replies ++ [⟨[], true, true⟩]
    .submitted { s with queue := queue₁, replies := replies₁ } rid
  else .panicked

/-- Outcome of the receiving half of `Requester::send_req`:

    response_receiver.recv().unwrap()

`value v` means the reply arrived and `send_req` returns `v`; `panicked`
means `recv` returned `RecvError` (the reply send-end was dropped without a
value having been sent) and the `.unwrap()` panics the calling thread;
`blocked` means the calling thread is still suspended awaiting the reply. -/
inductive ReplyRecvOutcome (Res : Type) where
  | value (v : Res)
  | panicked
  | blocked
deriving DecidableEq, Repr

/-- The receiving half of `Requester::send_req` (see `ReplyRecvOutcome`),
as a function of the state of the reply channel `rid`. -/
def reply_recv {Req Res : Type} (s : ChanState Req Res) (rid : Nat) :
    ReplyRecvOutcome Res :=
  match s.replies[rid]? with
  | none => .blocked
  | some ch =>
    match ch.msgs with
    | v :: _ => .value v
    | [] => if ch.senderAlive then .blocked else .panicked

/-- `Requester::clone` (derived `Clone`): one more live send-end handle on
the shared queue; nothing else changes. -/
def clone_requester {Req Res : Type} (s : ChanState Req Res) :
    ChanState Req Res :=
  { s with senders := s.senders + 1 }

/-- Dropping one `Requester` clone: one fewer live send-end handle. -/
def drop_requester {Req Res : Type} (s : ChanState Req Res) :
    ChanState Req Res :=
  { s with senders := s.senders - 1 }

/-- Dropping the `Responder`: the queue's receive-end is destroyed, which
destroys every envelope still in the queue and with them the send-ends of
their reply channels. -/
def drop_responder {Req Res : Type} (s : ChanState Req Res) :
    ChanState Req Res :=
  let replies₁ := s.replies.map (fun ch => { ch with senderAlive := false })
  { s with responderAlive := false, queue := [], replies := replies₁ }

/-- A `Responder<Req, Res>` value: exclusive owner of the receive-end of the
shared queue identified by `qid`. -/
structure ResponderHandle where
  qid : Nat
deriving DecidableEq, Repr

/-- A `Requester<Req, Res>` value: holder of a (cloneable) send-end of the
shared queue identified by `qid`. -/
structure RequesterHandle where
  qid : Nat
deriving DecidableEq, Repr

/-- A collection of requester/responder channels, indexed by queue id; each
call to the `channel` factory allocates a fresh cell. -/
structure World (Req Res : Type) where
  channels : List (ChanState Req Res)
deriving DecidableEq, Repr

/-- The state of a freshly constructed channel: empty queue, no reply
channels yet, exactly one live `Requester` send-end, responder alive. -/
def initChanState (Req Res : Type) : ChanState Req Res :=
  { queue := [], replies := [], senders := 1, responderAlive := true }

/-- The factory `channel::<Req, Res>()` from src/lib.rs:

    let (request_sender, request_receiver) = mpsc::channel::<Request<Req, Res>>();
    let c = Responder::new(request_receiver);
    let p = Requester::new(request_sender);
    return (c, p)

One fresh shared queue is constructed; its receive-end is wrapped in the
returned `Responder` and its send-end in the returned `Requester`, both
referring to the same new queue id. -/
def channel {Req Res : Type} (w : World Req Res) :
    World Req Res × ResponderHandle × RequesterHandle :=
  let qid := w.channels.length
  ({ channels := w.channels ++ [initChanState Req Res] }, ⟨qid⟩, ⟨qid⟩)

/-- Outcome of one `Responder::poll` call whose handler is a closure over
mutable state of type `σ` (the usage pattern of the crate's database
example: `responder.poll(|request| ...)` with the closure mutating a
captured table).  Mirrors `PollOutcome`, additionally threading the
handler's state. -/
inductive PollStOutcome (Req Res σ : Type) where
  | result (r : Except RequestError Unit) (s : ChanState Req Res) (st : σ) (invs : List Req)
  | blocked
deriving Repr

/-- `Responder::poll` with a stateful handler `f : σ → Req → σ × Res`
(a closure over mutable captured state).  Identical to `poll` except the
handler's state is threaded through the single invocation. -/
def poll_st {Req Res σ : Type} (f : σ → Req → σ × Res) (st : σ)
    (s : ChanState Req Res) : PollStOutcome Req Res σ :=
  match s.queue with
  | [] =>
    if s.senders = 0 then .result (.error .RecvError) s st []
    else .blocked
  | env :: rest =>
    let p := f st env.request
    match s.replies[env.response_sender]? with
    | none => .result (.error .SendError) { s with queue := rest } p.1 [env.request]
    | some ch =>
      if ch.receiverAlive then
        let ch₁ := { ch with msgs := ch.msgs ++ [p.2], senderAlive := false }
        let replies₁ := s.replies.set env.response_sender ch₁
        .result (.ok ()) { s with queue := rest, replies := replies₁ } p.1
          [env.request]
      else
        let ch₁ := { ch with senderAlive := false }
        let replies₁ := s.replies.set env.response_sender ch₁
        .result (.error .SendError) { s with queue := rest, replies := replies₁ }
          p.1 [env.request]

/-- Outcome of repeatedly calling `poll` with a stateful handler (the
`loop { responder.poll(...) }` pattern), with the same error policy as
`poll_loop`; carries the handler's final state. -/
inductive LoopStOutcome (Req Res σ : Type) where
  | terminated (s : ChanState Req Res) (st : σ) (invs : List Req)
  | panicked (st : σ) (invs : List Req)
  | blocked (st : σ) (invs : List Req)
  | outOfFuel (s : ChanState Req Res) (st : σ) (invs : List Req)
deriving Repr

/-- `poll_loop` with a stateful handler: repeats `poll_st`, threading the
handler's state, breaking on `RecvError` and panicking on `SendError`,
exactly as `Responder::poll_loop` does. -/
def poll_st_loop {Req Res σ : Type} (f : σ → Req → σ × Res) :
    Nat → σ → ChanState Req Res → List Req → LoopStOutcome Req Res σ
  | 0, st, s, acc => .outOfFuel s st acc
  | fuel + 1, st, s, acc =>
    match poll_st f st s with
    | .blocked => .blocked st acc
    | .result (.ok ()) s₁ st₁ invs => poll_st_loop f fuel st₁ s₁ (acc ++ invs)
    | .result (.error .RecvError) s₁ st₁ invs => .terminated s₁ st₁ (acc ++ invs)
    | .result (.error .SendError) _ st₁ invs => .panicked st₁ (acc ++ invs)

/-- The `Result` value returned by a `poll` call, `none` when the call is
still blocked inside `recv`. -/
def PollOutcome.res {Req Res : Type} : PollOutcome Req Res →
    Option (Except RequestError Unit)
  | .result r _ _ => some r
  | .blocked => none

/-- The channel state after a returned `poll` call; the given default when
the call is still blocked. -/
def PollOutcome.stateD {Req Res : Type} (o : PollOutcome Req Res)
    (d : ChanState Req Res) : ChanState Req Res :=
  match o with
  | .result _ s _ => s
  | .blocked => d

/-- The request bodies the handler was invoked on during one `poll` call. -/
def PollOutcome.invoked {Req Res : Type} : PollOutcome Req Res → List Req
  | .result _ _ invs => invs
  | .blocked => []

/-- Whether a `poll_st` loop run ended in the clean `break` on `RecvError`. -/
def LoopStOutcome.isTerminated {Req Res σ : Type} :
    LoopStOutcome Req Res σ → Bool
  | .terminated _ _ _ => true
  | _ => false

/-- The handler's state when a `poll_st` loop run ended. -/
def LoopStOutcome.handlerState {Req Res σ : Type} :
    LoopStOutcome Req Res σ → σ
  | .terminated _ st _ => st
  | .panicked st _ => st
  | .blocked st _ => st
  | .outOfFuel _ st _ => st

/-- The request bodies the handler was invoked on during a `poll_st` loop
run, in invocation order. -/
def LoopStOutcome.invoked {Req Res σ : Type} :
    LoopStOutcome Req Res σ → List Req
  | .terminated _ _ invs => invs
  | .panicked _ invs => invs
  | .blocked _ invs => invs
  | .outOfFuel _ _ invs => invs

/-- Well-formedness of a channel state, as established by the crate's usage
discipline: distinct queued envelopes name distinct reply channels (every
`send_req` creates a fresh one), every queued envelope's reply channel
exists and has not been used yet, and no reply channel ever holds more than
one message. -/
def WF {Req Res : Type} (s : ChanState Req Res) : Prop :=
  s.queue.Pairwise (fun a b => a.response_sender ≠ b.response_sender) ∧
  (∀ env ∈ s.queue,
     ∃ ch, s.replies[env.response_sender]? = some ch ∧ ch.msgs = []) ∧
  ∀ ch ∈ s.replies, ch.msgs.length ≤ 1

/-- A helper fact: a successful lookup bounds the index. -/
theorem lt_length_of_lookup {α : Type} {l : List α} {i : Nat} {a : α}
    (h : l[i]? = some a) : i < l.length :=
  (List.getElem?_eq_some.mp h).1

/-- C2: `Responder::poll` blocks while the queue is empty and a sender
remains; on an empty queue with no senders it returns `RecvError`; on
receipt of the head envelope it invokes the handler exactly once with that
envelope's body, consumes the envelope, returns success or `SendError`, and
when the envelope's reply channel's receive-end is alive it appends the
handler's response to exactly that channel and returns success. -/
theorem poll_recv_handle_reply {Req Res : Type} (f : Req → Res)
    (s : ChanState Req Res) :
    (s.queue = [] → 0 < s.senders → poll f s = .blocked) ∧
    (s.queue = [] → s.senders = 0 →
       poll f s = .result (.error .RecvError) s []) ∧
    (∀ env rest, s.queue = env :: rest →
       (poll f s).invoked = [env.request] ∧
       ((poll f s).stateD s).queue = rest ∧
       ((poll f s).res = some (.ok ()) ∨
        (poll f s).res = some (.error .SendError)) ∧
       (∀ ch, s.replies[env.response_sender]? = some ch →
          ch.receiverAlive = true →
          (poll f s).res = some (.ok ()) ∧
          ((poll f s).stateD s).replies[env.response_sender]? =
            some { ch with msgs := ch.msgs ++ [f env.request],
                           senderAlive := false })) := by
  refine ⟨?_, ?_, ?_⟩
  · intro hq hs
    have h0 : ¬ s.senders = 0 := by omega
    simp [poll, hq, h0]
  · intro hq hs
    simp [poll, hq, hs]
  · intro env rest hq
    rcases hch : s.replies[env.response_sender]? with _ | ch
    · refine ⟨?_, ?_, Or.inr ?_, ?_⟩ <;>
        simp [poll, hq, hch, PollOutcome.invoked, PollOutcome.stateD,
          PollOutcome.res]
    · have hlt : env.response_sender < s.replies.length := lt_length_of_lookup hch
      by_cases hra : ch.receiverAlive
      · refine ⟨?_, ?_, Or.inl ?_, ?_⟩
        · simp [poll, hq, hch, hra, PollOutcome.invoked]
        · simp [poll, hq, hch, hra, PollOutcome.stateD]
        · simp [poll, hq, hch, hra, PollOutcome.res]
        · intro ch' hch' hra'
          have hcc : ch = ch' := Option.some.inj hch'
          subst hcc
          refine ⟨by simp [poll, hq, hch, hra, PollOutcome.res], ?_⟩
          simp only [poll, hq, hch, hra, if_true, PollOutcome.stateD]
          exact List.getElem?_set_self hlt
      · refine ⟨?_, ?_, Or.inr ?_, ?_⟩
        · simp [poll, hq, hch, hra, PollOutcome.invoked]
        · simp [poll, hq, hch, hra, PollOutcome.stateD]
        · simp [poll, hq, hch, hra, PollOutcome.res]
        · intro ch' hch' hra'
          have hcc : ch = ch' := Option.some.inj hch'
          subst hcc
          exact absurd hra' (by simpa using hra)

/-- C2 witness: the theorem applied at a concrete channel state holding one
envelope, with handler `n + 1`. -/
theorem poll_recv_handle_reply_witness :
    ((poll (fun n => n + 1) (ChanState.mk [⟨5, 0⟩] [⟨[], true, true⟩] 1 true)).invoked
        = [5] ∧
      ((poll (fun n => n + 1)
          (ChanState.mk [⟨5, 0⟩] [⟨[], true, true⟩] 1 true)).stateD
        (ChanState.mk [⟨5, 0⟩] [⟨[], true, true⟩] 1 true)).queue = []) := by
  have h := (poll_recv_handle_reply (fun n => n + 1)
    (ChanState.mk [⟨5, 0⟩] [⟨[], true, true⟩] 1 true)).2.2 ⟨5, 0⟩ [] rfl
  exact ⟨h.1, h.2.1⟩

/-- C3: once all requester clones are dropped (`senders = 0`) and the queue
is empty, `poll` returns `RecvError` with the handler not invoked and the
state unchanged (so every further `poll` observes the very same no-senders
condition — the CLOSED state is terminal and idempotent), and `poll_loop`
terminates without invoking the handler again. -/
theorem shutdown_recverror_terminal {Req Res : Type} (f : Req → Res)
    (s : ChanState Req Res) (hs : s.senders = 0) (hq : s.queue = []) :
    poll f s = .result (.error .RecvError) s [] ∧
    (∀ fuel acc, poll_loop f (fuel + 1) s acc = .terminated s acc) := by
  have hp : poll f s = .result (.error .RecvError) s [] := by
    simp [poll, hq, hs]
  refine ⟨hp, fun fuel acc => ?_⟩
  simp [poll_loop, hp]

/-- C3 witness: the theorem applied at the drained, closed channel state. -/
theorem shutdown_recverror_terminal_witness :
    poll (fun n : Nat => n + 1) (ChanState.mk [] [] 0 true)
        = .result (.error .RecvError) (ChanState.mk [] [] 0 true) [] ∧
      poll_loop (fun n : Nat => n + 1) 4 (ChanState.mk [] [] 0 true) []
        = .terminated (ChanState.mk [] [] 0 true) [] := by
  have h := shutdown_recverror_terminal (fun n : Nat => n + 1)
    (ChanState.mk [] [] 0 true) rfl rfl
  exact ⟨h.1, h.2 3 []⟩

/-- C4: `poll_loop`'s error policy — a `RecvError` from `poll` is the
normal termination signal (the loop breaks cleanly, surfacing no error),
a `SendError` is fatal (the loop panics), and a success continues the
loop. -/
theorem poll_loop_error_policy {Req Res : Type} (f : Req → Res)
    (s s₁ : ChanState Req Res) (invs : List Req) (fuel : Nat)
    (acc : List Req) :
    (poll f s = .result (.error .RecvError) s₁ invs →
       poll_loop f (fuel + 1) s acc = .terminated s₁ (acc ++ invs)) ∧
    (poll f s = .result (.error .SendError) s₁ invs →
       poll_loop f (fuel + 1) s acc = .panicked (acc ++ invs)) ∧
    (poll f s = .result (.ok ()) s₁ invs →
       poll_loop f (fuel + 1) s acc = poll_loop f fuel s₁ (acc ++ invs)) := by
  refine ⟨fun h => ?_, fun h => ?_, fun h => ?_⟩ <;> simp [poll_loop, h]

/-- C4 witness: the theorem applied at a closed empty state (clean break)
and at a state whose head envelope's reply receiver is gone (panic). -/
theorem poll_loop_error_policy_witness :
    poll_loop (fun n : Nat => n + 1) 3 (ChanState.mk [] [] 0 true) []
        = .terminated (ChanState.mk [] [] 0 true) [] ∧
      poll_loop (fun n : Nat => n + 1) 3
          (ChanState.mk [⟨7, 0⟩] [⟨[], true, false⟩] 1 true) []
        = .panicked [7] := by
  constructor
  · exact (poll_loop_error_policy (fun n : Nat => n + 1)
      (ChanState.mk [] [] 0 true) (ChanState.mk [] [] 0 true) [] 2 []).1 rfl
  · exact (poll_loop_error_policy (fun n : Nat => n + 1)
      (ChanState.mk [⟨7, 0⟩] [⟨[], true, false⟩] 1 true)
      (ChanState.mk []
        [ReplyChan.mk [] false false] 1 true) [7] 2 []).2.1 rfl

/-- C10: when `poll` returns `SendError`, the handler has already been
invoked exactly once (on the head envelope's body) and the envelope has
been consumed — the post-state's queue is the old tail, so the request
cannot be observed or retried afterwards. -/
theorem poll_senderror_not_atomic {Req Res : Type} (f : Req → Res)
    (s s₁ : ChanState Req Res) (invs : List Req)
    (h : poll f s = .result (.error .SendError) s₁ invs) :
    s.queue ≠ [] ∧ invs = (s.queue.map Request.request).take 1 ∧
      s₁.queue = s.queue.tail := by
  rcases hq : s.queue with _ | ⟨env, rest⟩
  · by_cases hs : s.senders = 0 <;> simp [poll, hq, hs] at h
  · refine ⟨by simp, ?_⟩
    rcases hch : s.replies[env.response_sender]? with _ | ch
    · simp [poll, hq, hch] at h
      exact ⟨h.2.symm, by simp [← h.1]⟩
    · by_cases hra : ch.receiverAlive <;> simp [poll, hq, hch, hra] at h
      exact ⟨h.2.symm, by simp [← h.1]⟩

/-- C10 witness: the theorem applied at a state whose head envelope's reply
receiver has been abandoned. -/
theorem poll_senderror_not_atomic_witness :
    (ChanState.mk [Request.mk 7 0] [ReplyChan.mk ([] : List Nat) true false]
        1 true).queue ≠ [] ∧
      [7] = (((ChanState.mk [Request.mk 7 0]
          [ReplyChan.mk ([] : List Nat) true false] 1 true)).queue.map
            Request.request).take 1 ∧
      (ChanState.mk ([] : List (Request Nat))
          [ReplyChan.mk ([] : List Nat) false false] 1 true).queue
        = (ChanState.mk [Request.mk 7 0]
            [ReplyChan.mk ([] : List Nat) true false] 1 true).queue.tail := by
  exact poll_senderror_not_atomic (fun n : Nat => n + 1)
    (ChanState.mk [Request.mk 7 0] [ReplyChan.mk [] true false] 1 true)
    (ChanState.mk [] [ReplyChan.mk [] false false] 1 true) [7] rfl

/-- Helper: the poll that dequeues a head envelope whose fresh reply path
is still fully alive succeeds, invokes the handler on that envelope's body,
delivers exactly the handler's result into that envelope's reply path, and
leaves every other reply path untouched. -/
theorem poll_head_delivers {Req Res : Type} (f : Req → Res)
    (s : ChanState Req Res) (v : Req) (rid : Nat)
    (rest : List (Request Req)) (ch : ReplyChan Res)
    (hq : s.queue = ⟨v, rid⟩ :: rest)
    (hch : s.replies[rid]? = some ch)
    (hra : ch.receiverAlive = true)
    (hmsgs : ch.msgs = []) :
    (poll f s).res = some (.ok ()) ∧
      (poll f s).invoked = [v] ∧
      reply_recv ((poll f s).stateD s) rid = .value (f v) ∧
      ∀ j, j ≠ rid → ((poll f s).stateD s).replies[j]? = s.replies[j]? := by
  have hlt : rid < s.replies.length := lt_length_of_lookup hch
  refine ⟨?_, ?_, ?_, ?_⟩
  · simp [poll, hq, hch, hra, PollOutcome.res]
  · simp [poll, hq, hch, hra, PollOutcome.invoked]
  · simp only [poll, hq, hch, hra, if_true, PollOutcome.stateD]
    simp [reply_recv, List.getElem?_set_self hlt, hmsgs]
  · intro j hj
    simp only [poll, hq, hch, hra, if_true, PollOutcome.stateD]
    exact List.getElem?_set_ne (fun he => hj he.symm)

/-- C1: a `send_req v` call creates a fresh, private reply path (empty,
both ends alive) and appends its envelope to the shared queue; the `poll f`
call that dequeues that envelope returns success, invokes the handler on
that call's own body `v`, delivers exactly `f v` into that call's private
reply path (which is what the blocked `send_req` then returns), and touches
no other call's reply path. -/
theorem send_req_answered_by_poll {Req Res : Type} (f : Req → Res) :
    (∀ (s : ChanState Req Res) (v : Req),
       s.responderAlive = true →
       send_req_submit s v = .submitted
           { s with queue := s.queue ++ [⟨v, s.replies.length⟩],
                    replies := s.replies ++ [⟨[], true, true⟩] }
           s.replies.length ∧
         (s.replies ++ [(⟨[], true, true⟩ : ReplyChan Res)])[s.replies.length]?
           = some ⟨[], true, true⟩) ∧
    (∀ (s : ChanState Req Res) (v : Req) (rid : Nat)
       (rest : List (Request Req)) (ch : ReplyChan Res),
       s.queue = ⟨v, rid⟩ :: rest →
       s.replies[rid]? = some ch →
       ch.receiverAlive = true →
       ch.msgs = [] →
       (poll f s).res = some (.ok ()) ∧
         (poll f s).invoked = [v] ∧
         reply_recv ((poll f s).stateD s) rid = .value (f v) ∧
         ∀ j, j ≠ rid → ((poll f s).stateD s).replies[j]? = s.replies[j]?) := by
  constructor
  · intro s v hAlive
    exact ⟨by simp [send_req_submit, hAlive], List.getElem?_concat_length _ _⟩
  · intro s v rid rest ch hq hch hra hmsgs
    exact poll_head_delivers f s v rid rest ch hq hch hra hmsgs

/-- C1 witness: the theorem applied at a concrete one-envelope state with
handler `n + 1`: the answering poll succeeds and the reply path of the
issuing call holds `6 = 5 + 1`. -/
theorem send_req_answered_by_poll_witness :
    (poll (fun n => n + 1)
        (ChanState.mk [⟨5, 0⟩] [⟨[], true, true⟩] 1 true)).res
        = some (.ok ()) ∧
      reply_recv ((poll (fun n => n + 1)
          (ChanState.mk [⟨5, 0⟩] [⟨[], true, true⟩] 1 true)).stateD
        (ChanState.mk [⟨5, 0⟩] [⟨[], true, true⟩] 1 true)) 0
        = .value 6 := by
  have h := (send_req_answered_by_poll (fun n => n + 1)).2
    (ChanState.mk [⟨5, 0⟩] [⟨[], true, true⟩] 1 true) 5 0 []
    ⟨[], true, true⟩ rfl rfl rfl rfl
  exact ⟨h.1, h.2.2.1⟩

/-- C7: echo property — submitting any value `v` to an idle channel and
running the responder with the identity handler delivers exactly `v` back
into the issuing call's reply path, so `send_req v` returns `v`. -/
theorem echo_property {Req : Type} (s : ChanState Req Req) (v : Req)
    (hAlive : s.responderAlive = true) (hq : s.queue = []) :
    send_req_submit s v = .submitted
        { s with queue := s.queue ++ [⟨v, s.replies.length⟩],
                 replies := s.replies ++ [⟨[], true, true⟩] }
        s.replies.length ∧
      (poll (fun r => r)
          { s with queue := s.queue ++ [⟨v, s.replies.length⟩],
                   replies := s.replies ++ [⟨[], true, true⟩] }).res
        = some (.ok ()) ∧
      reply_recv ((poll (fun r => r)
          { s with queue := s.queue ++ [⟨v, s.replies.length⟩],
                   replies := s.replies ++ [⟨[], true, true⟩] }).stateD
        { s with queue := s.queue ++ [⟨v, s.replies.length⟩],
                 replies := s.replies ++ [⟨[], true, true⟩] })
        s.replies.length = .value v := by
  have hsub : send_req_submit s v = .submitted
      { s with queue := s.queue ++ [⟨v, s.replies.length⟩],
               replies := s.replies ++ [⟨[], true, true⟩] }
      s.replies.length := by
    simp [send_req_submit, hAlive]
  have h := poll_head_delivers (fun r : Req => r)
    { s with queue := s.queue ++ [⟨v, s.replies.length⟩],
             replies := s.replies ++ [⟨[], true, true⟩] }
    v s.replies.length [] ⟨[], true, true⟩
    (by simp [hq]) (List.getElem?_concat_length _ _) rfl rfl
  exact ⟨hsub, h.1, h.2.2.1⟩

/-- C7 witness: the theorem applied at a freshly created channel and
`v = 42`. -/
theorem echo_property_witness :
    send_req_submit (initChanState Nat Nat) 42 = .submitted
        (ChanState.mk [⟨42, 0⟩] [⟨[], true, true⟩] 1 true) 0 ∧
      (poll (fun r => r)
          (ChanState.mk [⟨42, 0⟩] [⟨[], true, true⟩] 1 true)).res
        = some (.ok ()) ∧
      reply_recv ((poll (fun r => r)
          (ChanState.mk [⟨42, 0⟩] [⟨[], true, true⟩] 1 true)).stateD
        (ChanState.mk [⟨42, 0⟩] [⟨[], true, true⟩] 1 true)) 0
        = .value 42 :=
  echo_property (initChanState Nat Nat) 42 rfl rfl

/-- C5: both failure modes of `send_req` are aborts of the calling thread,
not returned errors — a submission with no responder left panics (the
`.unwrap()` on the queue send), and a reply receive on a reply path whose
send-end is gone without a value having been sent panics (the `.unwrap()`
on `response_receiver.recv()`); in particular, after the responder is
dropped every not-yet-answered reply path panics its waiting caller. -/
theorem send_req_failures_panic {Req Res : Type} :
    (∀ (s : ChanState Req Res) (v : Req), s.responderAlive = false →
       send_req_submit s v = .panicked) ∧
    (∀ (s : ChanState Req Res) (rid : Nat) (ch : ReplyChan Res),
       s.replies[rid]? = some ch → ch.msgs = [] → ch.senderAlive = false →
       reply_recv s rid = (.panicked : ReplyRecvOutcome Res)) ∧
    (∀ (s : ChanState Req Res) (rid : Nat) (ch : ReplyChan Res),
       (drop_responder s).replies[rid]? = some ch → ch.msgs = [] →
       reply_recv (drop_responder s) rid
         = (.panicked : ReplyRecvOutcome Res)) := by
  refine ⟨?_, ?_, ?_⟩
  · intro s v h
    simp [send_req_submit, h]
  · intro s rid ch hch hmsgs hsa
    simp [reply_recv, hch, hmsgs, hsa]
  · intro s rid ch hch hmsgs
    have hsa : ch.senderAlive = false := by
      have h := hch
      simp only [drop_responder] at h
      rw [List.getElem?_map] at h
      rcases hx : s.replies[rid]? with _ | ch₀ <;> rw [hx] at h
      · simp at h
      · have h2 : ({ ch₀ with senderAlive := false } : ReplyChan Res) = ch := by
          simpa using h
        rw [← h2]
    simp [reply_recv, hch, hmsgs, hsa]

/-- C5 witness: the theorem applied at a channel whose responder is gone
(submission panics) and at a reply path abandoned without a value (reply
receive panics). -/
theorem send_req_failures_panic_witness :
    send_req_submit (ChanState.mk ([] : List (Request Nat))
        ([] : List (ReplyChan Nat)) 1 false) 5 = .panicked ∧
      reply_recv (ChanState.mk ([] : List (Request Nat))
        [ReplyChan.mk ([] : List Nat) false true] 1 true) 0
        = (.panicked : ReplyRecvOutcome Nat) ∧
      reply_recv (drop_responder (ChanState.mk [Request.mk 3 0]
        [ReplyChan.mk ([] : List Nat) true true] 1 true)) 0
        = (.panicked : ReplyRecvOutcome Nat) := by
  refine ⟨send_req_failures_panic.1 _ 5 rfl, ?_, ?_⟩
  · exact send_req_failures_panic.2.1
      (ChanState.mk [] [ReplyChan.mk [] false true] 1 true) 0
      (ReplyChan.mk [] false true) rfl rfl rfl
  · exact send_req_failures_panic.2.2
      (ChanState.mk [Request.mk 3 0] [ReplyChan.mk [] true true] 1 true) 0
      (ReplyChan.mk [] false true) rfl rfl

/-- C6: at most one value ever traverses a reply path, and an abandoned
reply receiver is surfaced, never silently dropped — when the head
envelope's reply receiver is gone, `poll` returns `SendError`; and the
well-formedness invariant `WF` (distinct fresh reply paths per queued
envelope, every reply path holding at most one message) holds of every
state reachable by `poll` and `send_req` submissions, so no reply path is
ever written twice. -/
theorem reply_path_single_use {Req Res : Type} (f : Req → Res) :
    (∀ (s : ChanState Req Res) (env : Request Req)
       (rest : List (Request Req)) (ch : ReplyChan Res),
       s.queue = env :: rest →
       s.replies[env.response_sender]? = some ch →
       ch.receiverAlive = false →
       (poll f s).res = some (.error .SendError)) ∧
    (∀ s : ChanState Req Res, WF s → ∀ ch ∈ s.replies, ch.msgs.length ≤ 1) ∧
    (∀ (s s₁ : ChanState Req Res) (r : Except RequestError Unit)
       (invs : List Req),
       WF s → poll f s = .result r s₁ invs → WF s₁) ∧
    (∀ (s s₁ : ChanState Req Res) (v : Req) (rid : Nat),
       WF s → send_req_submit s v = .submitted s₁ rid → WF s₁) := by
  refine ⟨?_, fun s hwf => hwf.2.2, ?_, ?_⟩
  · intro s env rest ch hq hch hra
    simp [poll, hq, hch, hra, PollOutcome.res]
  · intro s s₁ r invs hwf hp
    rcases hq : s.queue with _ | ⟨env, rest⟩
    · by_cases hs : s.senders = 0
      · simp only [poll, hq, hs, if_true] at hp
        injection hp with h1 h2 h3
        subst h2
        exact hwf
      · simp [poll, hq, hs] at hp
    · obtain ⟨hpw, hfresh, hlen⟩ := hwf
      rw [hq] at hpw
      obtain ⟨hhead, htail⟩ := List.pairwise_cons.mp hpw
      obtain ⟨ch, hch, hchm⟩ := hfresh env (by rw [hq]; exact List.mem_cons_self _ _)
      have hlt := lt_length_of_lookup hch
      by_cases hra : ch.receiverAlive
      · simp only [poll, hq, hch, hra, if_true] at hp
        injection hp with h1 h2 h3
        subst h2
        refine ⟨htail, ?_, ?_⟩
        · intro env' henv'
          obtain ⟨ch', hch', hm'⟩ := hfresh env'
            (by rw [hq]; exact List.mem_cons_of_mem _ henv')
          have hne : env.response_sender ≠ env'.response_sender :=
            hhead env' henv'
          exact ⟨ch', by rw [List.getElem?_set_ne hne]; exact hch', hm'⟩
        · intro ch' hch'
          rcases List.mem_or_eq_of_mem_set hch' with h | h
          · exact hlen ch' h
          · subst h
            simp [hchm]
      · simp only [poll, hq, hch, hra, if_false, Bool.false_eq_true] at hp
        injection hp with h1 h2 h3
        subst h2
        refine ⟨htail, ?_, ?_⟩
        · intro env' henv'
          obtain ⟨ch', hch', hm'⟩ := hfresh env'
            (by rw [hq]; exact List.mem_cons_of_mem _ henv')
          have hne : env.response_sender ≠ env'.response_sender :=
            hhead env' henv'
          exact ⟨ch', by rw [List.getElem?_set_ne hne]; exact hch', hm'⟩
        · intro ch' hch'
          rcases List.mem_or_eq_of_mem_set hch' with h | h
          · exact hlen ch' h
          · subst h
            simp [hchm]
  · intro s s₁ v rid hwf hsub
    by_cases hAlive : s.responderAlive
    · simp only [send_req_submit, hAlive, if_true] at hsub
      injection hsub with h1 h2
      subst h1
      obtain ⟨hpw, hfresh, hlen⟩ := hwf
      refine ⟨?_, ?_, ?_⟩
      · rw [List.pairwise_append]
        refine ⟨hpw, by simp, ?_⟩
        intro a ha b hb
        obtain ⟨ch, hch, _⟩ := hfresh a ha
        have hl := lt_length_of_lookup hch
        simp only [List.mem_singleton] at hb
        subst hb
        simp only []
        omega
      · intro env henv
        rcases List.mem_append.mp henv with h | h
        · obtain ⟨ch, hch, hm⟩ := hfresh env h
          exact ⟨ch, by
            rw [List.getElem?_append_left (lt_length_of_lookup hch)]
            exact hch, hm⟩
        · simp only [List.mem_singleton] at h
          subst h
          exact ⟨⟨[], true, true⟩, by simp [List.getElem?_concat_length], rfl⟩
      · intro ch hch
        rcases List.mem_append.mp hch with h | h
        · exact hlen ch h
        · simp only [List.mem_singleton] at h
          subst h
          simp
    · simp [send_req_submit, hAlive] at hsub

/-- C6 witness: the theorem applied at a state whose head envelope's reply
receiver is gone (the send failure is surfaced as `SendError`), and
preservation of the invariant across a successful poll of a well-formed
one-envelope state. -/
theorem reply_path_single_use_witness :
    (poll (fun n => n + 1)
        (ChanState.mk [⟨7, 0⟩] [⟨[], true, false⟩] 1 true)).res
        = some (.error .SendError) ∧
      WF ((poll (fun n => n + 1)
        (ChanState.mk [⟨5, 0⟩] [⟨[], true, true⟩] 1 true)).stateD
        (ChanState.mk [⟨5, 0⟩] [⟨[], true, true⟩] 1 true)) := by
  constructor
  · exact (reply_path_single_use (fun n => n + 1)).1
      (ChanState.mk [⟨7, 0⟩] [⟨[], true, false⟩] 1 true)
      ⟨7, 0⟩ [] ⟨[], true, false⟩ rfl rfl rfl
  · have hwf : WF (ChanState.mk [⟨5, 0⟩]
        [(⟨[], true, true⟩ : ReplyChan Nat)] 1 true) := by
      refine ⟨?_, ?_, ?_⟩
      · simp
      · intro env henv
        simp only [List.mem_singleton] at henv
        subst henv
        exact ⟨⟨[], true, true⟩, rfl, rfl⟩
      · intro ch hch
        simp only [List.mem_singleton] at hch
        subst hch
        simp
    exact (reply_path_single_use (fun n => n + 1)).2.2.1
      (ChanState.mk [⟨5, 0⟩] [⟨[], true, true⟩] 1 true)
      (ChanState.mk [] [⟨[6], false, true⟩] 1 true)
      (.ok ()) [5] hwf (by simp [poll])

/-- C8: the factory `channel()` constructs exactly one new shared queue
(initially empty, one live sender) and returns one responder handle and one
requester handle wired to that same new queue — the new queue is distinct
from every pre-existing one (so no second responder ever shares a queue),
and an envelope submitted through the requester's queue is the one the
responder's poll receives and handles. -/
theorem channel_factory_wiring {Req Res : Type} (w : World Req Res) :
    ((channel w).2.1).qid = ((channel w).2.2).qid ∧
    ((channel w).1).channels = w.channels ++ [initChanState Req Res] ∧
    ((channel w).1).channels[((channel w).2.1).qid]?
      = some (initChanState Req Res) ∧
    (∀ i, i < w.channels.length → ((channel w).2.1).qid ≠ i) ∧
    (∀ (v : Req) (f : Req → Res),
       send_req_submit (initChanState Req Res) v
           = .submitted (ChanState.mk [⟨v, 0⟩] [⟨[], true, true⟩] 1 true) 0 ∧
         (poll f (ChanState.mk [⟨v, 0⟩] [⟨[], true, true⟩] 1 true)).res
           = some (.ok ()) ∧
         (poll f (ChanState.mk [⟨v, 0⟩] [⟨[], true, true⟩] 1 true)).invoked
           = [v]) := by
  refine ⟨rfl, rfl, ?_, ?_, ?_⟩
  · exact List.getElem?_concat_length _ _
  · intro i hi
    simp only [channel]
    omega
  · intro v f
    refine ⟨by simp [send_req_submit, initChanState], ?_, ?_⟩
    · simp [poll, PollOutcome.res]
    · simp [poll, PollOutcome.invoked]

/-- C8 witness: the factory applied to a world already holding one channel:
the two returned handles share the new queue id, which differs from the
pre-existing queue's id. -/
theorem channel_factory_wiring_witness :
    ((channel (World.mk [initChanState Nat Nat])).2.1).qid
        = ((channel (World.mk [initChanState Nat Nat])).2.2).qid ∧
      ((channel (World.mk [initChanState Nat Nat])).2.1).qid ≠ 0 ∧
      send_req_submit (initChanState Nat Nat) 9
        = .submitted (ChanState.mk [⟨9, 0⟩] [⟨[], true, true⟩] 1 true) 0 := by
  have h := channel_factory_wiring (World.mk [initChanState Nat Nat])
  exact ⟨h.1, h.2.2.2.1 0 (by decide), (h.2.2.2.2 9 (fun n => n + 1)).1⟩

/-- Helper for C9: running the stateful poll loop on a channel with no
remaining senders processes the queued envelopes strictly in order and
threads the handler's state through as a left fold — each invocation
starts from exactly the state the previous invocation finished with. -/
theorem poll_st_loop_foldl_aux {Req Res σ : Type} (f : σ → Req → σ × Res) :
    ∀ (q : List (Request Req)) (s : ChanState Req Res) (st : σ)
      (acc : List Req) (fuel : Nat),
      s.queue = q →
      s.senders = 0 →
      (∀ env ∈ q, ∃ ch, s.replies[env.response_sender]? = some ch ∧
         ch.receiverAlive = true) →
      q.length < fuel →
      (poll_st_loop f fuel st s acc).isTerminated = true ∧
      (poll_st_loop f fuel st s acc).invoked
        = acc ++ q.map Request.request ∧
      (poll_st_loop f fuel st s acc).handlerState
        = (q.map Request.request).foldl (fun a r => (f a r).1) st := by
  intro q
  induction q with
  | nil =>
    intro s st acc fuel hq hs hch hfuel
    cases fuel with
    | zero => omega
    | succ n =>
      have hp : poll_st f st s = .result (.error .RecvError) s st [] := by
        simp [poll_st, hq, hs]
      simp [poll_st_loop, hp, LoopStOutcome.isTerminated,
        LoopStOutcome.invoked, LoopStOutcome.handlerState]
  | cons env rest ih =>
    intro s st acc fuel hq hs hch hfuel
    cases fuel with
    | zero => simp at hfuel
    | succ n =>
      obtain ⟨ch, hch0, hra⟩ := hch env (List.mem_cons_self _ _)
      have hlt := lt_length_of_lookup hch0
      have hp : poll_st f st s = .result (.ok ())
          { s with queue := rest,
                   replies := s.replies.set env.response_sender
                     { ch with msgs := ch.msgs ++ [(f st env.request).2],
                               senderAlive := false } }
          (f st env.request).1 [env.request] := by
        simp [poll_st, hq, hch0, hra]
      have heq : poll_st_loop f (n + 1) st s acc
          = poll_st_loop f n (f st env.request).1
            { s with queue := rest,
                     replies := s.replies.set env.response_sender
                       { ch with msgs := ch.msgs ++ [(f st env.request).2],
                                 senderAlive := false } }
            (acc ++ [env.request]) := by
        simp [poll_st_loop, hp]
      have hche : ∀ env' ∈ rest,
          ∃ ch', (s.replies.set env.response_sender
              { ch with msgs := ch.msgs ++ [(f st env.request).2],
                        senderAlive := false })[env'.response_sender]?
              = some ch' ∧ ch'.receiverAlive = true := by
        intro env' h'
        obtain ⟨ch', hc', hr'⟩ := hch env' (List.mem_cons_of_mem _ h')
        by_cases he : env'.response_sender = env.response_sender
        · rw [he]
          refine ⟨{ ch with msgs := ch.msgs ++ [(f st env.request).2],
                            senderAlive := false },
            List.getElem?_set_self hlt, ?_⟩
          simpa using hra
        · exact ⟨ch', by
            rw [List.getElem?_set_ne (Ne.symm he)]
            exact hc', hr'⟩
      obtain ⟨h1, h2, h3⟩ := ih
        { s with queue := rest,
                 replies := s.replies.set env.response_sender
                   { ch with msgs := ch.msgs ++ [(f st env.request).2],
                             senderAlive := false } }
        (f st env.request).1 (acc ++ [env.request]) n rfl hs hche
        (by simp at hfuel ⊢; omega)
      rw [heq]
      refine ⟨h1, ?_, ?_⟩
      · rw [h2]
        simp
      · rw [h3]
        simp

/-- C9: handler execution is strictly serialized — running the responder's
poll loop with a handler that mutates state it closes over invokes the
handler once per queued envelope, in queue order, and each invocation
receives exactly the state the previous invocation completed (the final
state is the sequential left fold of the handler over the queued bodies),
so no invocation ever observes an interleaved partial update. -/
theorem handler_execution_serialized {Req Res σ : Type}
    (f : σ → Req → σ × Res) (st : σ) (s : ChanState Req Res)
    (acc : List Req) (fuel : Nat)
    (hs : s.senders = 0)
    (hch : ∀ env ∈ s.queue, ∃ ch, s.replies[env.response_sender]? = some ch ∧
       ch.receiverAlive = true)
    (hfuel : s.queue.length < fuel) :
    (poll_st_loop f fuel st s acc).isTerminated = true ∧
    (poll_st_loop f fuel st s acc).invoked
      = acc ++ s.queue.map Request.request ∧
    (poll_st_loop f fuel st s acc).handlerState
      = (s.queue.map Request.request).foldl (fun a r => (f a r).1) st :=
  poll_st_loop_foldl_aux f s.queue s st acc fuel rfl hs hch hfuel

/-- C9 witness: the theorem applied at a two-envelope queue with a handler
summing into its captured state: invocations happen in queue order and the
final state is the sequential fold `(0 + 1) + 2 = 3`. -/
theorem handler_execution_serialized_witness :
    (poll_st_loop (fun (a r : Nat) => (a + r, a + r)) 3 0
        (ChanState.mk [⟨1, 0⟩, ⟨2, 1⟩]
          [⟨[], true, true⟩, ⟨[], true, true⟩] 0 true)
        []).isTerminated = true ∧
      (poll_st_loop (fun (a r : Nat) => (a + r, a + r)) 3 0
        (ChanState.mk [⟨1, 0⟩, ⟨2, 1⟩]
          [⟨[], true, true⟩, ⟨[], true, true⟩] 0 true)
        []).invoked = [1, 2] ∧
      (poll_st_loop (fun (a r : Nat) => (a + r, a + r)) 3 0
        (ChanState.mk [⟨1, 0⟩, ⟨2, 1⟩]
          [⟨[], true, true⟩, ⟨[], true, true⟩] 0 true)
        []).handlerState = 3 := by
  have h := handler_execution_serialized (fun (a r : Nat) => (a + r, a + r))
    0 (ChanState.mk [⟨1, 0⟩, ⟨2, 1⟩]
        [⟨[], true, true⟩, ⟨[], true, true⟩] 0 true) [] 3 rfl
    (by
      intro env henv
      simp only [List.mem_cons, List.not_mem_nil, or_false] at henv
      rcases henv with henv | henv <;> subst henv
      · exact ⟨⟨[], true, true⟩, rfl, rfl⟩
      · exact ⟨⟨[], true, true⟩, rfl, rfl⟩)
    (by decide)
  exact ⟨h.1, h.2.1, h.2.2⟩

end MpscRequests
